import Mathlib

/-!
Verification of the shopping-cart service (`src/services/cart.service.ts`).

The service is embedded shallowly: JavaScript numbers are modelled as
rationals (`ℚ`), untyped request fields as a `JSVal` sum type, the mutable
`this.cart` as explicit state passing, and thrown errors as `Except`.
Each definition transcribes the corresponding TypeScript function.
-/

namespace Cart

/-- A JavaScript runtime value, as it may arrive in a JSON request body.
Numbers are modelled as rationals (no NaN/Infinity in the model). -/
inductive JSVal where
  | num (q : ℚ)
  | str (s : String)
  | boolean (b : Bool)
  | undefined
  | null
  deriving DecidableEq, Repr

/-- JavaScript truthiness: `0`, `""`, `false`, `undefined`, `null` are falsy. -/
def JSVal.truthy : JSVal → Bool
  | .num q => q != 0
  | .str s => s != ""
  | .boolean b => b
  | .undefined => false
  | .null => false

/-- `typeof v === "number"` -/
def JSVal.isNum : JSVal → Bool
  | .num _ => true
  | _ => false

/-- `typeof v === "string"` -/
def JSVal.isStr : JSVal → Bool
  | .str _ => true
  | _ => false

/-- Numeric payload; only used after a `typeof === "number"` check passed. -/
def JSVal.getNum : JSVal → ℚ
  | .num q => q
  | _ => 0

/-- String payload; only used after a `typeof === "string"` check passed. -/
def JSVal.getStr : JSVal → String
  | .str s => s
  | _ => ""

/-- `String.prototype.trim()`: strip leading and trailing whitespace. -/
def jsTrim (s : String) : String :=
  ⟨((s.data.dropWhile Char.isWhitespace).reverse.dropWhile Char.isWhitespace).reverse⟩

/-- `CartItem` from `models/cart.model.ts`. -/
structure CartItem where
  productId : ℚ
  name : String
  price : ℚ
  quantity : ℚ
  deriving DecidableEq, Repr

/-- `Cart` from `models/cart.model.ts`: the mutable item list. -/
structure Cart where
  items : List CartItem
  deriving DecidableEq, Repr

/-- The cart the service constructor builds: `{ items: [] }`. -/
def emptyCart : Cart := ⟨[]⟩

/-- `CartResponse` from `models/cart.model.ts`. -/
structure CartResponse where
  items : List CartItem
  total : ℚ
  itemCount : ℚ
  deriving DecidableEq, Repr

/-- `CheckoutResponse` from `models/cart.model.ts`.  `orderId` and
`checkoutTime` are produced from `Date.now()`, `uuidv4()` and
`new Date().toISOString()`; the model receives them as parameters. -/
structure CheckoutResponse where
  orderId : String
  items : List CartItem
  total : ℚ
  itemCount : ℚ
  checkoutTime : String
  deriving DecidableEq, Repr

/-- The three error classes of `errors.ts`, each carrying its message. -/
inductive CartError where
  | validation (msg : String)
  | notFound (msg : String)
  | badRequest (msg : String)
  deriving DecidableEq, Repr

/-- `Math.round` on a (finite) number: round half toward positive infinity. -/
def jsRound (q : ℚ) : ℚ := (⌊q + 1/2⌋ : ℤ)

/-- `calculateTotal`: sum of `price * quantity`, then
`Math.round(total * 100) / 100`. -/
def calculateTotal (c : Cart) : ℚ :=
  jsRound ((c.items.foldl (fun sum item => sum + item.price * item.quantity) 0) * 100) / 100

/-- `calculateItemCount`: sum of quantities. -/
def calculateItemCount (c : Cart) : ℚ :=
  c.items.foldl (fun count item => count + item.quantity) 0

/-- `findItemIndex`: `findIndex` returns `-1` when absent; the model returns
`none` instead, and the service's `index < 0` tests become `none` tests. -/
def findItemIndex (c : Cart) (productId : ℚ) : Option Nat :=
  c.items.findIdx? (fun item => item.productId == productId)

/-- `AddItemInput`: the four request-body fields, still untyped. -/
structure AddItemInput where
  productId : JSVal
  name : JSVal
  price : JSVal
  quantity : JSVal
  deriving DecidableEq, Repr

/-- `UpdateItemInput`: optional fields; `.undefined` means absent. -/
structure UpdateItemInput where
  quantity : JSVal
  price : JSVal
  deriving DecidableEq, Repr

/-- Condition of the first `validateAddItemInput` check:
`!input.productId || typeof input.productId !== "number"`. -/
def pidBad (i : AddItemInput) : Bool :=
  !i.productId.truthy || !i.productId.isNum

/-- Condition of the second check:
`!input.name || typeof input.name !== "string" || input.name.trim() === ""`. -/
def nameBad (i : AddItemInput) : Bool :=
  !i.name.truthy || !i.name.isStr || jsTrim i.name.getStr == ""

/-- Condition of the third check:
`typeof input.price !== "number" || input.price <= 0`. -/
def priceBad (i : AddItemInput) : Bool :=
  !i.price.isNum || i.price.getNum ≤ 0

/-- A supplied quantity value fails
`typeof q !== "number" || q < 1 || !Number.isInteger(q)`. -/
def qtyValBad (v : JSVal) : Bool :=
  !v.isNum || v.getNum < 1 || !(v.getNum.den == 1)

/-- A supplied price value fails `typeof p !== "number" || p <= 0`. -/
def priceValBad (v : JSVal) : Bool :=
  !v.isNum || v.getNum ≤ 0

/-- `validateAddItemInput`: the four fail-fast checks, in source order. -/
def validateAddItemInput (i : AddItemInput) : Except CartError Unit :=
  if pidBad i then
    .error (.validation "productId is required and must be a number")
  else if nameBad i then
    .error (.validation "name is required and must be a non-empty string")
  else if priceBad i then
    .error (.validation "price must be greater than 0")
  else if qtyValBad i.quantity then
    .error (.validation "quantity must be at least 1 and must be an integer")
  else
    .ok ()

/-- `validateUpdateInput`: at least one field, then range checks per field. -/
def validateUpdateInput (u : UpdateItemInput) : Except CartError Unit :=
  if u.quantity = JSVal.undefined ∧ u.price = JSVal.undefined then
    .error (.validation "At least one field (quantity or price) must be provided")
  else if u.quantity ≠ JSVal.undefined ∧ qtyValBad u.quantity then
    .error (.validation "quantity must be at least 1 and must be an integer")
  else if u.price ≠ JSVal.undefined ∧ priceValBad u.price then
    .error (.validation "price must be greater than 0")
  else
    .ok ()

/-- `getCart`: the fresh snapshot with computed total and count. -/
def getCart (c : Cart) : CartResponse :=
  { items := c.items
    total := calculateTotal c
    itemCount := calculateItemCount c }

/-- `addItem`: validate, then increment the existing line or push a new one.
The state component of the result is the cart after the call; a thrown
error leaves the cart as it was. -/
def addItem (c : Cart) (i : AddItemInput) : Except CartError CartResponse × Cart :=
  match validateAddItemInput i with
  | .error e => (.error e, c)
  | .ok _ =>
    match findItemIndex c i.productId.getNum with
    | some idx =>
      let c' : Cart :=
        ⟨c.items.modify (fun item => { item with quantity := item.quantity + i.quantity.getNum }) idx⟩
      (.ok (getCart c'), c')
    | none =>
      let newItem : CartItem :=
        { productId := i.productId.getNum
          name := jsTrim i.name.getStr
          price := i.price.getNum
          quantity := i.quantity.getNum }
      let c' : Cart := ⟨c.items ++ [newItem]⟩
      (.ok (getCart c'), c')

/-- `updateItem`: validate the fields, look the item up, overwrite only the
supplied fields. -/
def updateItem (c : Cart) (productId : ℚ) (u : UpdateItemInput) :
    Except CartError CartResponse × Cart :=
  match validateUpdateInput u with
  | .error e => (.error e, c)
  | .ok _ =>
    match findItemIndex c productId with
    | none => (.error (.notFound s!"Item with productId {productId} not found in cart"), c)
    | some idx =>
      let c' : Cart :=
        ⟨c.items.modify (fun item =>
          let item1 := if u.quantity ≠ JSVal.undefined
            then { item with quantity := u.quantity.getNum } else item
          if u.price ≠ JSVal.undefined
            then { item1 with price := u.price.getNum } else item1) idx⟩
      (.ok (getCart c'), c')

/-- `removeItem`: look the item up, splice it out. -/
def removeItem (c : Cart) (productId : ℚ) : Except CartError CartResponse × Cart :=
  match findItemIndex c productId with
  | none => (.error (.notFound s!"Item with productId {productId} not found in cart"), c)
  | some idx =>
    let c' : Cart := ⟨c.items.eraseIdx idx⟩
    (.ok (getCart c'), c')

/-- `clearCart`: unconditionally empty the item list. -/
def clearCart (_c : Cart) : Except CartError CartResponse × Cart :=
  (.ok (getCart emptyCart), emptyCart)

/-- `checkout`: reject the empty cart, otherwise build the order summary
from the pre-clear items and empty the cart.  `orderId` and `checkoutTime`
stand for the `Date.now()`/`uuidv4()`/ISO-timestamp values. -/
def checkout (c : Cart) (orderId checkoutTime : String) :
    Except CartError CheckoutResponse × Cart :=
  if c.items.length = 0 then
    (.error (.badRequest "Cannot checkout with an empty cart"), c)
  else
    (.ok { orderId := orderId
           items := c.items
           total := calculateTotal c
           itemCount := calculateItemCount c
           checkoutTime := checkoutTime }, emptyCart)

/-! ### Spec-side definitions

Written from the spec's wording, to compare with the transcribed code. -/

/-- Modelled from the spec: "rounded to 2 decimal places (half-up rounding
to nearest cent)". -/
def roundHalfUpCents (q : ℚ) : ℚ := (⌊q * 100 + 1/2⌋ : ℤ) / 100

/-- Modelled from the spec: "`total` = Σ(unitPrice × quantity) over all
items", before rounding. -/
def specSubtotal (items : List CartItem) : ℚ :=
  (items.map (fun it => it.price * it.quantity)).sum

/-- Modelled from the spec: "`itemCount` = Σ(quantity) over all items". -/
def specCount (items : List CartItem) : ℚ :=
  (items.map CartItem.quantity).sum

/-! ### Helper lemmas -/

lemma foldl_total_eq (l : List CartItem) (a : ℚ) :
    l.foldl (fun sum item => sum + item.price * item.quantity) a = a + specSubtotal l := by
  induction l generalizing a with
  | nil => simp [specSubtotal]
  | cons x xs ih => simp [specSubtotal, ih, add_assoc]

lemma foldl_count_eq (l : List CartItem) (a : ℚ) :
    l.foldl (fun count item => count + item.quantity) a = a + specCount l := by
  induction l generalizing a with
  | nil => simp [specCount]
  | cons x xs ih => simp [specCount, ih, add_assoc]

lemma calculateTotal_eq (c : Cart) : calculateTotal c = roundHalfUpCents (specSubtotal c.items) := by
  simp [calculateTotal, roundHalfUpCents, jsRound, foldl_total_eq]

lemma calculateItemCount_eq (c : Cart) : calculateItemCount c = specCount c.items := by
  simp [calculateItemCount, foldl_count_eq]

lemma findIdx?_some_spec {α : Type} (p : α → Bool) (l : List α) (j : Nat)
    (h : l.findIdx? p = some j) : ∃ x, l[j]? = some x ∧ p x = true := by
  induction l generalizing j with
  | nil => simp [List.findIdx?] at h
  | cons x xs ih =>
    rw [List.findIdx?_cons] at h
    by_cases hp : p x
    · simp [hp] at h; subst h; exact ⟨x, by simp, hp⟩
    · simp [hp] at h
      obtain ⟨j', hj', rfl⟩ := h
      obtain ⟨y, hy, hpy⟩ := ih j' hj'
      exact ⟨y, by simpa using hy, hpy⟩

lemma map_modify {β : Type} (g : CartItem → β) (f : CartItem → CartItem)
    (hf : ∀ x, g (f x) = g x) (l : List CartItem) (j : Nat) :
    (l.modify f j).map g = l.map g := by
  apply List.ext_getElem?
  intro n
  simp only [List.getElem?_map, List.getElem?_modify]
  cases l[n]? with
  | none => simp
  | some x => by_cases hjn : j = n <;> simp [hjn, hf]

/-! ### Claims -/

/-- C2: every snapshot — the one `getCart` returns and the one every
successful mutating operation returns — has `total` equal to
Σ(price × quantity) rounded half-up to the nearest cent and `itemCount`
equal to Σ(quantity); the empty cart yields total 0 and itemCount 0. -/
theorem snapshot_total_itemCount :
    (∀ c : Cart, getCart c =
      ⟨c.items, roundHalfUpCents (specSubtotal c.items), specCount c.items⟩)
    ∧ getCart emptyCart = ⟨[], 0, 0⟩
    ∧ (∀ c i r c', addItem c i = (.ok r, c') → r = getCart c')
    ∧ (∀ c p u r c', updateItem c p u = (.ok r, c') → r = getCart c')
    ∧ (∀ c p r c', removeItem c p = (.ok r, c') → r = getCart c')
    ∧ (∀ c r c', clearCart c = (.ok r, c') → r = getCart c')
    ∧ (∀ c oid t o c', checkout c oid t = (.ok o, c') →
        o.total = roundHalfUpCents (specSubtotal o.items)
          ∧ o.itemCount = specCount o.items) := by
  refine ⟨fun c => ?_, ?_, fun c i r c' h => ?_, fun c p u r c' h => ?_,
    fun c p r c' h => ?_, fun c r c' h => ?_, fun c oid t o c' h => ?_⟩
  · simp [getCart, calculateTotal_eq, calculateItemCount_eq]
  · norm_num [getCart, emptyCart, calculateTotal_eq, calculateItemCount_eq,
      roundHalfUpCents, specSubtotal, specCount]
  · unfold addItem at h
    split at h
    · simp at h
    · split at h <;>
        (simp only [Prod.mk.injEq, Except.ok.injEq] at h; exact h.1.symm.trans (by rw [h.2]))
  · unfold updateItem at h
    split at h
    · simp at h
    · split at h
      · simp at h
      · simp only [Prod.mk.injEq, Except.ok.injEq] at h; exact h.1.symm.trans (by rw [h.2])
  · unfold removeItem at h
    split at h
    · simp at h
    · simp only [Prod.mk.injEq, Except.ok.injEq] at h; exact h.1.symm.trans (by rw [h.2])
  · unfold clearCart at h
    simp only [Prod.mk.injEq, Except.ok.injEq] at h; exact h.1.symm.trans (by rw [h.2])
  · unfold checkout at h
    split at h
    · simp at h
    · simp only [Prod.mk.injEq, Except.ok.injEq] at h
      obtain ⟨rfl, -⟩ := h
      exact ⟨calculateTotal_eq c, calculateItemCount_eq c⟩

/-- Witness for C2: a concrete successful `addItem` returns exactly the
snapshot of the post state. -/
theorem snapshot_total_itemCount_witness :
    (⟨[⟨1, "Milk", 3, 2⟩], 6, 2⟩ : CartResponse) = getCart ⟨[⟨1, "Milk", 3, 2⟩]⟩ := by
  have ht : jsTrim "Milk" = "Milk" := by decide
  have hne : ¬("Milk" : String) = "" := by decide
  refine snapshot_total_itemCount.2.2.1 emptyCart ⟨.num 1, .str "Milk", .num 3, .num 2⟩ _ _ ?_
  norm_num [addItem, validateAddItemInput, pidBad, nameBad, priceBad, qtyValBad,
    JSVal.truthy, JSVal.isNum, JSVal.isStr, JSVal.getNum, JSVal.getStr, ht, hne,
    Rat.den_ofNat, findItemIndex, emptyCart, getCart, calculateTotal,
    calculateItemCount, jsRound, List.findIdx?]

/-- C3: checkout on a non-empty cart succeeds, its order summary carries the
pre-clear items with total and count computed over them and the provided
order id and checkout time, and the cart is empty afterwards, so a
subsequent `getCart` returns the empty snapshot. -/
theorem checkout_nonempty_spec (c : Cart) (oid t : String) (h : c.items ≠ []) :
    checkout c oid t =
      (.ok ⟨oid, c.items, roundHalfUpCents (specSubtotal c.items), specCount c.items, t⟩,
        emptyCart)
    ∧ getCart emptyCart = ⟨[], 0, 0⟩ := by
  constructor
  · unfold checkout
    rw [if_neg (by simpa using h)]
    simp [calculateTotal_eq, calculateItemCount_eq]
  · norm_num [getCart, emptyCart, calculateTotal_eq, calculateItemCount_eq,
      roundHalfUpCents, specSubtotal, specCount]

/-- Witness for C3 at a one-item cart. -/
theorem checkout_nonempty_spec_witness :
    checkout ⟨[⟨1, "Milk", 5/2, 4⟩]⟩ "ORD-1" "2025-01-01T00:00:00.000Z" =
      (.ok ⟨"ORD-1", [⟨1, "Milk", 5/2, 4⟩],
        roundHalfUpCents (specSubtotal [⟨1, "Milk", 5/2, 4⟩]),
        specCount [⟨1, "Milk", 5/2, 4⟩], "2025-01-01T00:00:00.000Z"⟩, emptyCart)
    ∧ getCart emptyCart = ⟨[], 0, 0⟩ :=
  checkout_nonempty_spec ⟨[⟨1, "Milk", 5/2, 4⟩]⟩ "ORD-1" "2025-01-01T00:00:00.000Z"
    (by simp)

/-- Counterexample for C4 as stated: the message the code throws on an empty
checkout is "Cannot checkout with an empty cart" (capital C), not the
claimed "cannot checkout with an empty cart". -/
theorem checkout_empty_message_counterexample :
    (checkout emptyCart "ORD" "T").1
        = .error (.badRequest "Cannot checkout with an empty cart")
    ∧ "Cannot checkout with an empty cart" ≠ "cannot checkout with an empty cart" :=
  ⟨rfl, by decide⟩

/-- C4 (amended): checkout on the empty cart raises `BadRequestError` with
message "Cannot checkout with an empty cart" and leaves the cart state
completely unchanged. -/
theorem checkout_empty_spec (c : Cart) (oid t : String) (h : c.items = []) :
    checkout c oid t = (.error (.badRequest "Cannot checkout with an empty cart"), c) := by
  unfold checkout
  rw [if_pos (by simp [h])]

/-- Witness for C4 at the empty cart. -/
theorem checkout_empty_spec_witness :
    checkout emptyCart "ORD" "T"
      = (.error (.badRequest "Cannot checkout with an empty cart"), emptyCart) :=
  checkout_empty_spec emptyCart "ORD" "T" rfl

/-- C1: on a validated input, if the cart already holds a line with the same
productId, `addItem` adds the incoming quantity to that line and leaves its
productId, name and price (and every other line) unchanged; otherwise it
appends a new line at the end with the name trimmed; either way it returns
the fresh snapshot of the new state. -/
theorem addItem_behavior (c : Cart) (i : AddItemInput)
    (hv : validateAddItemInput i = .ok ()) :
    ((∃ j, findItemIndex c i.productId.getNum = some j
        ∧ (addItem c i).2.items.length = c.items.length
        ∧ (∀ k, k ≠ j → (addItem c i).2.items[k]? = c.items[k]?)
        ∧ ∃ old, c.items[j]? = some old ∧ old.productId = i.productId.getNum
            ∧ (addItem c i).2.items[j]? =
                some ⟨old.productId, old.name, old.price, old.quantity + i.quantity.getNum⟩)
      ∨ (findItemIndex c i.productId.getNum = none
        ∧ (addItem c i).2.items = c.items ++
            [⟨i.productId.getNum, jsTrim i.name.getStr, i.price.getNum, i.quantity.getNum⟩]))
    ∧ (addItem c i).1 = .ok (getCart (addItem c i).2) := by
  rcases hidx : findItemIndex c i.productId.getNum with _ | j
  · have ha : addItem c i =
        (.ok (getCart ⟨c.items ++
            [⟨i.productId.getNum, jsTrim i.name.getStr, i.price.getNum, i.quantity.getNum⟩]⟩),
          ⟨c.items ++
            [⟨i.productId.getNum, jsTrim i.name.getStr, i.price.getNum, i.quantity.getNum⟩]⟩) := by
      unfold addItem
      rw [hv, hidx]
    rw [ha]
    exact ⟨.inr ⟨rfl, rfl⟩, rfl⟩
  · have ha : addItem c i =
        (.ok (getCart ⟨c.items.modify
            (fun item => { item with quantity := item.quantity + i.quantity.getNum }) j⟩),
          ⟨c.items.modify
            (fun item => { item with quantity := item.quantity + i.quantity.getNum }) j⟩) := by
      unfold addItem
      rw [hv, hidx]
    obtain ⟨old, hold, hb⟩ := findIdx?_some_spec _ _ _ hidx
    rw [ha]
    refine ⟨.inl ⟨j, rfl, List.length_modify .., fun k hk => ?_, old, hold, ?_, ?_⟩, rfl⟩
    · rw [List.getElem?_modify]
      cases c.items[k]? with
      | none => rfl
      | some x => simp [Ne.symm hk]
    · simpa using hb
    · rw [List.getElem?_modify, hold]
      obtain ⟨opid, onm, opr, oq⟩ := old
      simp

/-- Witness for C1: a concrete validated add returns the snapshot of the
post state. -/
theorem addItem_behavior_witness :
    (addItem ⟨[⟨7, "Tea", 2, 1⟩]⟩ ⟨.num 7, .str "Tea", .num 2, .num 3⟩).1
      = .ok (getCart (addItem ⟨[⟨7, "Tea", 2, 1⟩]⟩ ⟨.num 7, .str "Tea", .num 2, .num 3⟩).2) :=
  (addItem_behavior ⟨[⟨7, "Tea", 2, 1⟩]⟩ ⟨.num 7, .str "Tea", .num 2, .num 3⟩ rfl).2

/-- One mutation step of the service: any public mutating operation, with
any input, moving the private cart from its pre state to its post state. -/
inductive Step : Cart → Cart → Prop where
  | add : ∀ c i, Step c (addItem c i).2
  | update : ∀ c p u, Step c (updateItem c p u).2
  | remove : ∀ c p, Step c (removeItem c p).2
  | clear : ∀ c, Step c (clearCart c).2
  | order : ∀ c oid t, Step c (checkout c oid t).2

/-- Cart states reachable from the constructor's empty cart by any sequence
of operations. -/
def Reachable (c : Cart) : Prop := Relation.ReflTransGen Step emptyCart c

lemma step_preserves_nodup {c c' : Cart} (h : Step c c')
    (hn : (c.items.map CartItem.productId).Nodup) :
    (c'.items.map CartItem.productId).Nodup := by
  cases h with
  | add i =>
    unfold addItem
    split
    · exact hn
    · rcases hidx : findItemIndex c i.productId.getNum with _ | j
      · simp only [List.map_append, List.map_cons, List.map_nil]
        rw [List.nodup_append]
        refine ⟨hn, by simp, ?_⟩
        intro x hx hmem
        simp only [List.mem_singleton] at hmem
        obtain ⟨it, hit, hpid⟩ := List.mem_map.mp hx
        have hne := (List.findIdx?_eq_none_iff.mp hidx) it hit
        simp only [beq_eq_false_iff_ne, ne_eq] at hne
        exact hne (hpid.trans hmem)
      · show (List.map CartItem.productId
            (c.items.modify
              (fun item => { item with quantity := item.quantity + i.quantity.getNum }) j)).Nodup
        rw [map_modify CartItem.productId
          (fun item => { item with quantity := item.quantity + i.quantity.getNum })
          (fun x => rfl)]
        exact hn
  | update p u =>
    unfold updateItem
    split
    · exact hn
    · rcases hidx : findItemIndex c p with _ | j
      · exact hn
      · show (List.map CartItem.productId
            (c.items.modify (fun item =>
              let item1 := if u.quantity ≠ JSVal.undefined
                then { item with quantity := u.quantity.getNum } else item
              if u.price ≠ JSVal.undefined
                then { item1 with price := u.price.getNum } else item1) j)).Nodup
        have hf : ∀ x : CartItem, (CartItem.productId
            (let item1 := if u.quantity ≠ JSVal.undefined
              then { x with quantity := u.quantity.getNum } else x
             if u.price ≠ JSVal.undefined
              then { item1 with price := u.price.getNum } else item1)) = x.productId := by
          intro x
          by_cases hq : u.quantity ≠ JSVal.undefined <;>
            by_cases hp : u.price ≠ JSVal.undefined <;> simp [hq, hp]
        rw [map_modify CartItem.productId _ hf]
        exact hn
  | remove p =>
    unfold removeItem
    rcases hidx : findItemIndex c p with _ | j
    · exact hn
    · exact ((List.eraseIdx_sublist c.items j).map CartItem.productId).nodup hn
  | clear => simp [clearCart, emptyCart]
  | order oid t =>
    unfold checkout
    split
    · exact hn
    · simp [emptyCart]

/-- C5: every cart state reachable from the empty cart by any sequence of
operations holds at most one line item per productId. -/
theorem reachable_pid_nodup (c : Cart) (h : Reachable c) :
    (c.items.map CartItem.productId).Nodup := by
  induction h with
  | refl => simp [emptyCart]
  | tail _ hstep ih => exact step_preserves_nodup hstep ih

/-- Witness for C5 at the initial state. -/
theorem reachable_pid_nodup_witness :
    (emptyCart.items.map CartItem.productId).Nodup :=
  reachable_pid_nodup emptyCart Relation.ReflTransGen.refl

/-- Counterexample for C6 as stated: the message for a missing productId is
"productId is required and must be a number", not the claimed
"productId is required". -/
theorem addItem_messages_counterexample :
    addItem emptyCart ⟨.undefined, .str "Milk", .num 2, .num 1⟩
      = (.error (.validation "productId is required and must be a number"), emptyCart)
    ∧ "productId is required and must be a number" ≠ "productId is required" :=
  ⟨rfl, by decide⟩

/-- C6 (amended): `addItem` validates fail-fast in the order productId,
name, price, quantity, the first violation winning, raising
`ValidationError` with the code's messages, and never mutates the cart on a
validation failure; when all four checks pass, validation succeeds. -/
theorem addItem_validation_spec (c : Cart) (i : AddItemInput) :
    (pidBad i = true →
      addItem c i = (.error (.validation "productId is required and must be a number"), c))
    ∧ (pidBad i = false → nameBad i = true →
      addItem c i = (.error (.validation "name is required and must be a non-empty string"), c))
    ∧ (pidBad i = false → nameBad i = false → priceBad i = true →
      addItem c i = (.error (.validation "price must be greater than 0"), c))
    ∧ (pidBad i = false → nameBad i = false → priceBad i = false →
        qtyValBad i.quantity = true →
      addItem c i = (.error (.validation "quantity must be at least 1 and must be an integer"), c))
    ∧ (pidBad i = false → nameBad i = false → priceBad i = false →
        qtyValBad i.quantity = false → validateAddItemInput i = .ok ()) := by
  refine ⟨fun h1 => ?_, fun h1 h2 => ?_, fun h1 h2 h3 => ?_,
    fun h1 h2 h3 h4 => ?_, fun h1 h2 h3 h4 => ?_⟩ <;>
    simp [addItem, validateAddItemInput, h1, *]

/-- Witness for C6: the quantity check fires only after the first three
checks pass. -/
theorem addItem_validation_spec_witness :
    addItem ⟨[⟨5, "Tea", 2, 1⟩]⟩ ⟨.num 5, .str "Tea", .num 2, .str "two"⟩
      = (.error (.validation "quantity must be at least 1 and must be an integer"),
        ⟨[⟨5, "Tea", 2, 1⟩]⟩) :=
  (addItem_validation_spec _ _).2.2.2.1 (by decide) (by decide) (by decide) (by decide)

/-- Counterexample for C7 as stated: the no-field message is
"At least one field (quantity or price) must be provided", not the claimed
"at least one field must be provided". -/
theorem updateItem_messages_counterexample :
    updateItem emptyCart 999 ⟨.undefined, .undefined⟩
      = (.error (.validation "At least one field (quantity or price) must be provided"),
        emptyCart)
    ∧ "At least one field (quantity or price) must be provided"
        ≠ "at least one field must be provided" :=
  ⟨rfl, by decide⟩

/-- C7 (amended): `updateItem` checks its rules in order — no field
supplied, out-of-range quantity, out-of-range price, then existence — with
the code's messages; a field-validation error wins over the existence
check, so an absent productId combined with an invalid field raises
`ValidationError`, and `NotFoundError` fires only once validation passed. -/
theorem updateItem_validation_spec (c : Cart) (pid : ℚ) (u : UpdateItemInput) :
    (u.quantity = .undefined → u.price = .undefined →
      updateItem c pid u
        = (.error (.validation "At least one field (quantity or price) must be provided"), c))
    ∧ (u.quantity ≠ .undefined → qtyValBad u.quantity = true →
      updateItem c pid u
        = (.error (.validation "quantity must be at least 1 and must be an integer"), c))
    ∧ (u.price ≠ .undefined → priceValBad u.price = true →
        (u.quantity = .undefined ∨ qtyValBad u.quantity = false) →
      updateItem c pid u = (.error (.validation "price must be greater than 0"), c))
    ∧ (validateUpdateInput u = .ok () → findItemIndex c pid = none →
      updateItem c pid u
        = (.error (.notFound s!"Item with productId {pid} not found in cart"), c)) := by
  refine ⟨fun h1 h2 => ?_, fun h1 h2 => ?_, fun h1 h2 h3 => ?_, fun hv h => ?_⟩
  · simp [updateItem, validateUpdateInput, h1, h2]
  · simp [updateItem, validateUpdateInput, h1, h2]
  · rcases h3 with h3 | h3 <;> simp [updateItem, validateUpdateInput, h1, h2, h3]
  · unfold updateItem
    rw [hv, h]

/-- Witness for C7: a validation error wins on a cart that lacks the
productId, and the not-found error fires once fields are valid. -/
theorem updateItem_validation_spec_witness :
    updateItem ⟨[⟨5, "Tea", 2, 1⟩]⟩ 999 ⟨.num 0, .undefined⟩
      = (.error (.validation "quantity must be at least 1 and must be an integer"),
        ⟨[⟨5, "Tea", 2, 1⟩]⟩)
    ∧ updateItem emptyCart 999 ⟨.num 2, .undefined⟩
      = (.error (.notFound s!"Item with productId {(999 : ℚ)} not found in cart"), emptyCart) :=
  ⟨(updateItem_validation_spec _ _ _).2.1 (by decide) (by decide),
   (updateItem_validation_spec _ _ _).2.2.2 rfl rfl⟩

/-- C8: a valid `updateItem` on a present productId overwrites only the
supplied fields of that one line item; its unsupplied field, name and
productId keep their prior values, every other line is unchanged, the order
is unchanged, and the fresh snapshot is returned. -/
theorem updateItem_frame (c : Cart) (pid : ℚ) (u : UpdateItemInput)
    (hv : validateUpdateInput u = .ok ()) (j : Nat) (hj : findItemIndex c pid = some j) :
    (updateItem c pid u).2.items.length = c.items.length
    ∧ (∀ k, k ≠ j → (updateItem c pid u).2.items[k]? = c.items[k]?)
    ∧ (∃ old, c.items[j]? = some old ∧ old.productId = pid
        ∧ (updateItem c pid u).2.items[j]? = some
            ⟨old.productId, old.name,
              if u.price ≠ JSVal.undefined then u.price.getNum else old.price,
              if u.quantity ≠ JSVal.undefined then u.quantity.getNum else old.quantity⟩)
    ∧ (updateItem c pid u).1 = .ok (getCart (updateItem c pid u).2) := by
  have ha : updateItem c pid u =
      (.ok (getCart ⟨c.items.modify (fun item =>
          let item1 := if u.quantity ≠ JSVal.undefined
            then { item with quantity := u.quantity.getNum } else item
          if u.price ≠ JSVal.undefined
            then { item1 with price := u.price.getNum } else item1) j⟩),
        ⟨c.items.modify (fun item =>
          let item1 := if u.quantity ≠ JSVal.undefined
            then { item with quantity := u.quantity.getNum } else item
          if u.price ≠ JSVal.undefined
            then { item1 with price := u.price.getNum } else item1) j⟩) := by
    unfold updateItem
    rw [hv, hj]
  obtain ⟨old, hold, hb⟩ := findIdx?_some_spec _ _ _ hj
  rw [ha]
  refine ⟨List.length_modify .., fun k hk => ?_, ⟨old, hold, by simpa using hb, ?_⟩, rfl⟩
  · rw [List.getElem?_modify]
    cases c.items[k]? with
    | none => rfl
    | some x => simp [Ne.symm hk]
  · rw [List.getElem?_modify, hold]
    obtain ⟨opid, onm, opr, oq⟩ := old
    by_cases hq : u.quantity ≠ JSVal.undefined <;>
      by_cases hp : u.price ≠ JSVal.undefined <;> simp [hq, hp]

/-- Witness for C8: a concrete quantity-only update returns the snapshot of
the post state. -/
theorem updateItem_frame_witness :
    (updateItem ⟨[⟨5, "Tea", 2, 1⟩]⟩ 5 ⟨.num 4, .undefined⟩).1
      = .ok (getCart (updateItem ⟨[⟨5, "Tea", 2, 1⟩]⟩ 5 ⟨.num 4, .undefined⟩).2) :=
  (updateItem_frame ⟨[⟨5, "Tea", 2, 1⟩]⟩ 5 ⟨.num 4, .undefined⟩ rfl 0 rfl).2.2.2

/-- C9: `removeItem` on a present productId removes exactly that line, the
rest keeping their relative order, and returns the fresh snapshot; on an
absent productId both `removeItem` and a validly-fielded `updateItem` raise
`NotFoundError` and leave the cart exactly as it was. -/
theorem removeItem_and_absent_spec :
    (∀ c pid j, findItemIndex c pid = some j →
      (removeItem c pid).2.items = c.items.take j ++ c.items.drop (j + 1)
      ∧ (removeItem c pid).1 = .ok (getCart (removeItem c pid).2))
    ∧ (∀ c pid, findItemIndex c pid = none →
      removeItem c pid
        = (.error (.notFound s!"Item with productId {pid} not found in cart"), c))
    ∧ (∀ c pid u, validateUpdateInput u = .ok () → findItemIndex c pid = none →
      updateItem c pid u
        = (.error (.notFound s!"Item with productId {pid} not found in cart"), c)) := by
  refine ⟨fun c pid j hj => ?_, fun c pid h => ?_, fun c pid u hv h => ?_⟩
  · have ha : removeItem c pid
        = (.ok (getCart ⟨c.items.eraseIdx j⟩), ⟨c.items.eraseIdx j⟩) := by
      unfold removeItem
      rw [hj]
    rw [ha]
    exact ⟨List.eraseIdx_eq_take_drop_succ .., rfl⟩
  · unfold removeItem
    rw [h]
  · unfold updateItem
    rw [hv, h]

/-- Witness for C9 at a two-item cart and at the empty cart. -/
theorem removeItem_and_absent_spec_witness :
    (removeItem ⟨[⟨1, "A", 2, 1⟩, ⟨2, "B", 3, 1⟩]⟩ 1).2.items
        = List.take 0 [⟨1, "A", 2, 1⟩, ⟨2, "B", 3, 1⟩]
          ++ List.drop 1 [(⟨1, "A", 2, 1⟩ : CartItem), ⟨2, "B", 3, 1⟩]
    ∧ removeItem emptyCart 7
        = (.error (.notFound s!"Item with productId {(7 : ℚ)} not found in cart"), emptyCart) :=
  ⟨(removeItem_and_absent_spec.1 ⟨[⟨1, "A", 2, 1⟩, ⟨2, "B", 3, 1⟩]⟩ 1 0 rfl).1,
   removeItem_and_absent_spec.2.1 emptyCart 7 rfl⟩

/-- C10: the productId presence check uses JavaScript falsiness: the number
0 is rejected with the "required" ValidationError, while every nonzero
number — negative or non-integer included — passes the productId check and
can become an item's key in the cart. -/
theorem addItem_pid_falsiness :
    (∀ (c : Cart) (nm pr qt : JSVal),
      addItem c ⟨.num 0, nm, pr, qt⟩
        = (.error (.validation "productId is required and must be a number"), c))
    ∧ (∀ q : ℚ, q ≠ 0 → ∀ i : AddItemInput, i.productId = .num q → pidBad i = false)
    ∧ (∀ (q : ℚ), q ≠ 0 → ∀ (nm : String) (pr qt : ℚ),
        nm ≠ "" → jsTrim nm ≠ "" → 0 < pr → 1 ≤ qt → qt.den = 1 →
        (addItem emptyCart ⟨.num q, .str nm, .num pr, .num qt⟩).2.items
          = [⟨q, jsTrim nm, pr, qt⟩]) := by
  refine ⟨fun c nm pr qt => ?_, fun q hq i hi => ?_,
    fun q hq nm pr qt h1 h2 h3 h4 h5 => ?_⟩
  · simp [addItem, validateAddItemInput, pidBad, JSVal.truthy]
  · simp [pidBad, hi, JSVal.truthy, JSVal.isNum, hq]
  · have hv : validateAddItemInput ⟨.num q, .str nm, .num pr, .num qt⟩ = .ok () := by
      have h3' : ¬ pr ≤ 0 := not_le.mpr h3
      have h4' : ¬ qt < 1 := not_lt.mpr h4
      simp [validateAddItemInput, pidBad, nameBad, priceBad, qtyValBad,
        JSVal.truthy, JSVal.isNum, JSVal.isStr, JSVal.getNum, JSVal.getStr,
        hq, h1, h2, h3', h4', h5]
    have hidx : findItemIndex emptyCart q = none := rfl
    have ha : addItem emptyCart ⟨.num q, .str nm, .num pr, .num qt⟩
        = (.ok (getCart ⟨[⟨q, jsTrim nm, pr, qt⟩]⟩), ⟨[⟨q, jsTrim nm, pr, qt⟩]⟩) := by
      unfold addItem
      rw [hv]
      simp only [JSVal.getNum, JSVal.getStr, hidx]
      simp [emptyCart]
    rw [ha]

/-- Witness for C10 at the claim's own examples: -3 and 1.5 pass the
productId check; 1.5 becomes an item key. -/
theorem addItem_pid_falsiness_witness :
    pidBad ⟨.num (-3), .str "X", .num 1, .num 1⟩ = false
    ∧ (addItem emptyCart ⟨.num (3/2), .str "X", .num 2, .num 1⟩).2.items
        = [⟨3/2, jsTrim "X", 2, 1⟩] :=
  ⟨addItem_pid_falsiness.2.1 (-3) (by norm_num) _ rfl,
   addItem_pid_falsiness.2.2 (3/2) (by norm_num) "X" 2 1 (by decide) (by decide)
     (by norm_num) (by norm_num) (by simp)⟩

end Cart
